import Mathlib

/-!
Shallow embedding of `bot.py` (hacdark014-sudo/themultiapi): a Telegram bot
forwarding user commands to fixed HTTP APIs, with a per-user per-day usage
quota, admin broadcast/stats, and a liveness endpoint.

Python dictionaries are modelled as association lists that preserve insertion
order (as Python 3.7+ dicts do): `getA` is `dict.get`, `setA` is `d[k] = v`,
`setdefaultA` is `dict.setdefault`, `delA` is `del d[k]`.  The current UTC
calendar day (`datetime.utcnow().strftime("%Y-%m-%d")`) is threaded as an
explicit `String` parameter.  Network effects (`aiohttp` GET, `json.loads`)
are passed in as oracle parameters; the code's own control flow is embedded
faithfully.
-/

/-- `dict.get k` on an insertion-ordered association list. -/
def getA {α β : Type} [DecidableEq α] (m : List (α × β)) (k : α) : Option β :=
  match m with
  | [] => none
  | (k0, v) :: rest => if k0 = k then some v else getA rest k

/-- `d[k] = v`: replace in place when the key exists, else append. -/
def setA {α β : Type} [DecidableEq α] : List (α × β) → α → β → List (α × β)
  | [], k, v => [(k, v)]
  | (k0, v0) :: rest, k, v =>
      if k0 = k then (k, v) :: rest else (k0, v0) :: setA rest k v

/-- `dict.setdefault k v`: insert `(k, v)` at the end only when `k` is absent. -/
def setdefaultA {α β : Type} [DecidableEq α] (m : List (α × β)) (k : α) (v : β) :
    List (α × β) :=
  match getA m k with
  | some _ => m
  | none => m ++ [(k, v)]

/-- `del d[k]`: drop every entry with key `k`. -/
def delA {α β : Type} [DecidableEq α] (m : List (α × β)) (k : α) : List (α × β) :=
  m.filter (fun p => decide (p.1 ≠ k))

@[simp] theorem getA_nil {α β : Type} [DecidableEq α] (k : α) :
    getA ([] : List (α × β)) k = none := rfl

@[simp] theorem getA_cons {α β : Type} [DecidableEq α] (k0 : α) (v : β) (rest : List (α × β))
    (k : α) : getA ((k0, v) :: rest) k = if k0 = k then some v else getA rest k := rfl

theorem getA_append {α β : Type} [DecidableEq α] (m l : List (α × β)) (k : α) :
    getA (m ++ l) k = ((getA m k).rec (getA l k) fun v => some v) := by
  induction m with
  | nil => simp
  | cons p rest ih =>
      obtain ⟨k0, v⟩ := p
      by_cases h : k0 = k <;> simp [getA, h, ih]

theorem getA_setA_self {α β : Type} [DecidableEq α] (m : List (α × β)) (k : α) (v : β) :
    getA (setA m k v) k = some v := by
  induction m with
  | nil => simp [setA]
  | cons p rest ih =>
      obtain ⟨k0, v0⟩ := p
      by_cases h : k0 = k <;> simp [setA, h, ih]

theorem getA_setA_ne {α β : Type} [DecidableEq α] (m : List (α × β)) (k k' : α) (v : β)
    (h : k ≠ k') : getA (setA m k v) k' = getA m k' := by
  induction m with
  | nil => simp [setA, h]
  | cons p rest ih =>
      obtain ⟨k0, v0⟩ := p
      by_cases h0 : k0 = k
      · subst h0
        simp [setA, h]
      · simp [setA, h0, ih]

theorem getA_setdefaultA_self {α β : Type} [DecidableEq α] (m : List (α × β)) (k : α) (v : β) :
    getA (setdefaultA m k v) k = some ((getA m k).getD v) := by
  unfold setdefaultA
  cases h : getA m k with
  | some w => simp [h]
  | none => simp [getA_append, h]

theorem getA_setdefaultA_ne {α β : Type} [DecidableEq α] (m : List (α × β)) (k k' : α) (v : β)
    (h : k ≠ k') : getA (setdefaultA m k v) k' = getA m k' := by
  unfold setdefaultA
  cases hm : getA m k with
  | some w => rfl
  | none =>
      cases hm' : getA m k' with
      | some w => simp [getA_append, hm', h]
      | none => simp [getA_append, hm', h]

theorem keys_setdefaultA_present {α β : Type} [DecidableEq α] (m : List (α × β)) (k : α)
    (v : β) (h : (getA m k).isSome) : setdefaultA m k v = m := by
  unfold setdefaultA
  cases hm : getA m k with
  | some w => rfl
  | none => rw [hm] at h; simp at h

theorem setdefaultA_absent {α β : Type} [DecidableEq α] (m : List (α × β)) (k : α) (v : β)
    (h : getA m k = none) : setdefaultA m k v = m ++ [(k, v)] := by
  unfold setdefaultA
  rw [h]

theorem keys_setA {α β : Type} [DecidableEq α] (m : List (α × β)) (k : α) (v : β)
    (h : (getA m k).isSome) : (setA m k v).map Prod.fst = m.map Prod.fst := by
  induction m with
  | nil => simp [getA] at h
  | cons p rest ih =>
      obtain ⟨k0, v0⟩ := p
      by_cases h0 : k0 = k
      · subst h0
        simp [setA]
      · simp [getA, h0] at h
        simp [setA, h0, ih h]

-- ---------------------------
-- Usage Tracker  (class UsageTracker)
-- ---------------------------

/-- `UsageTracker`: daily limit plus `_counts : Dict[int, Dict[str, int]]`. -/
structure UsageTracker where
  limit : Nat
  counts : List (Int × List (String × Nat))
  deriving DecidableEq, Repr

namespace UsageTracker

/-- `check_quota`: `used = self._counts.setdefault(user_id, {}).get(today, 0);
return used < self.limit`.  The `setdefault` mutates `_counts`, so the new
tracker state is returned alongside the boolean. -/
def check_quota (t : UsageTracker) (user_id : Int) (today : String) :
    Bool × UsageTracker :=
  let counts1 := setdefaultA t.counts user_id []
  let used := (getA ((getA counts1 user_id).getD []) today).getD 0
  (decide (used < t.limit), { t with counts := counts1 })

/-- `increment`: `counts = self._counts.setdefault(user_id, {});
counts[today] = counts.get(today, 0) + 1`. -/
def increment (t : UsageTracker) (user_id : Int) (today : String) : UsageTracker :=
  let counts1 := setdefaultA t.counts user_id []
  let daily := (getA counts1 user_id).getD []
  let daily1 := setA daily today (((getA daily today).getD 0) + 1)
  { t with counts := setA counts1 user_id daily1 }

/-- The nested-dict read `self._counts.get(user_id, {}).get(day, 0)`:
the count stored for a `(user, day)` pair, `0` when absent. -/
def countOf (t : UsageTracker) (user_id : Int) (day : String) : Nat :=
  (getA ((getA t.counts user_id).getD []) day).getD 0

/-- The list of lines built by `stats`, one per stored `(user, day, count)`. -/
def statsLines (t : UsageTracker) : List String :=
  t.counts.foldr
    (fun p acc =>
      (p.2.map fun q => s!"User {p.1} on {q.1}: {q.2}") ++ acc) []

/-- `stats`: `"\n".join(lines) if lines else "No usage recorded."`. -/
def stats (t : UsageTracker) : String :=
  let lines := t.statsLines
  if lines.isEmpty then "No usage recorded." else String.intercalate "\n" lines

/-- The user ids iterated by `broadcast`: `usage_tracker._counts.keys()`. -/
def recordedUsers (t : UsageTracker) : List Int :=
  t.counts.map Prod.fst

/-- `increment` applied `n` times (same user, same day). -/
def incrementN (t : UsageTracker) (user_id : Int) (today : String) : Nat → UsageTracker
  | 0 => t
  | n + 1 => (incrementN t user_id today n).increment user_id today

@[simp] theorem limit_check_quota (t : UsageTracker) (u : Int) (d : String) :
    (t.check_quota u d).2.limit = t.limit := rfl

@[simp] theorem limit_increment (t : UsageTracker) (u : Int) (d : String) :
    (t.increment u d).limit = t.limit := rfl

/-- The boolean returned by `check_quota` is exactly `countOf < limit`. -/
theorem check_quota_fst (t : UsageTracker) (u : Int) (d : String) :
    (t.check_quota u d).1 = decide (t.countOf u d < t.limit) := by
  unfold check_quota countOf
  simp [getA_setdefaultA_self]

/-- `check_quota` leaves every stored `(user, day)` count unchanged: its only
side effect is `setdefault(user_id, {})`. -/
theorem countOf_check_quota (t : UsageTracker) (u : Int) (d : String)
    (u' : Int) (d' : String) :
    (t.check_quota u d).2.countOf u' d' = t.countOf u' d' := by
  unfold check_quota countOf
  by_cases hu : u = u'
  · subst hu
    simp [getA_setdefaultA_self]
  · simp [getA_setdefaultA_ne _ _ _ _ hu]

theorem countOf_increment_self (t : UsageTracker) (u : Int) (d : String) :
    (t.increment u d).countOf u d = t.countOf u d + 1 := by
  unfold increment countOf
  simp [getA_setA_self, getA_setdefaultA_self]

theorem countOf_increment_ne_user (t : UsageTracker) (u : Int) (d : String)
    (u' : Int) (d' : String) (hu : u ≠ u') :
    (t.increment u d).countOf u' d' = t.countOf u' d' := by
  unfold increment countOf
  simp [getA_setA_ne _ _ _ _ hu, getA_setdefaultA_ne _ _ _ _ hu]

theorem countOf_increment_ne_day (t : UsageTracker) (u : Int) (d : String)
    (u' : Int) (d' : String) (hd : d ≠ d') :
    (t.increment u d).countOf u' d' = t.countOf u' d' := by
  by_cases hu : u = u'
  · subst hu
    unfold increment countOf
    simp [getA_setA_self, getA_setdefaultA_self, getA_setA_ne _ _ _ _ hd]
  · exact countOf_increment_ne_user t u d u' d' hu

theorem countOf_incrementN_self (t : UsageTracker) (u : Int) (d : String) (n : Nat) :
    (t.incrementN u d n).countOf u d = t.countOf u d + n := by
  induction n with
  | zero => rfl
  | succ k ih => simp [incrementN, countOf_increment_self, ih]; omega

theorem countOf_incrementN_ne_day (t : UsageTracker) (u : Int) (d : String)
    (u' : Int) (d' : String) (hd : d ≠ d') (n : Nat) :
    (t.incrementN u d n).countOf u' d' = t.countOf u' d' := by
  induction n with
  | zero => rfl
  | succ k ih => simp [incrementN, countOf_increment_ne_day _ _ _ _ _ hd, ih]

theorem limit_incrementN (t : UsageTracker) (u : Int) (d : String) (n : Nat) :
    (t.incrementN u d n).limit = t.limit := by
  induction n with
  | zero => rfl
  | succ k ih => simp [incrementN, ih]

/-- For a user already present, `check_quota` does not change the key list. -/
theorem recordedUsers_check_quota_present (t : UsageTracker) (u : Int) (d : String)
    (h : (getA t.counts u).isSome) :
    (t.check_quota u d).2.recordedUsers = t.recordedUsers := by
  unfold check_quota recordedUsers
  simp [keys_setdefaultA_present _ _ _ h]

/-- For an absent user, `check_quota`'s `setdefault` appends the user with an
empty per-day dict. -/
theorem check_quota_absent_counts (t : UsageTracker) (u : Int) (d : String)
    (h : getA t.counts u = none) :
    (t.check_quota u d).2.counts = t.counts ++ [(u, [])] := by
  unfold check_quota
  simp [setdefaultA_absent _ _ _ h]

theorem statsLines_append_empty (t : UsageTracker) (u : Int) :
    UsageTracker.statsLines { t with counts := t.counts ++ [(u, [])] } = t.statsLines := by
  unfold statsLines
  simp [List.foldr_append]

end UsageTracker

-- ---------------------------
-- JSON values and Python rendering  (json.loads results)
-- ---------------------------

/-- The values `json.loads` can return (floats are not used by any claim and
are omitted; JSON numbers are modelled as integers). -/
inductive PyJson where
  | null
  | bool (b : Bool)
  | num (n : Int)
  | str (s : String)
  | arr (items : List PyJson)
  | obj (entries : List (String × PyJson))

mutual

/-- Python `repr` of a `json.loads` value (ASCII subset; `repr`'s escaping of
special characters inside strings is not modelled, no claim depends on it). -/
def pyRepr : PyJson → String
  | .null => "None"
  | .bool true => "True"
  | .bool false => "False"
  | .num n => toString n
  | .str s => "\x27" ++ s ++ "\x27"
  | .arr items => "[" ++ String.intercalate ", " (pyReprList items) ++ "]"
  | .obj entries => "\x7b" ++ String.intercalate ", " (pyReprObj entries) ++ "\x7d"

def pyReprList : List PyJson → List String
  | [] => []
  | x :: xs => pyRepr x :: pyReprList xs

def pyReprObj : List (String × PyJson) → List String
  | [] => []
  | (k, v) :: xs => ("\x27" ++ k ++ "\x27: " ++ pyRepr v) :: pyReprObj xs

end

/-- Python `str` of a `json.loads` value: a string is returned as itself,
everything else prints as its `repr`. -/
def pyStr : PyJson → String
  | .str s => s
  | j => pyRepr j

/-- `json.dumps` escaping of one character (ASCII subset; `ensure_ascii`
escaping of non-ASCII characters is not modelled, no claim depends on it). -/
def jsonEscapeChar (c : Char) : String :=
  if c = '\\' then "\\\\"
  else if c = '"' then "\\\""
  else if c = '\n' then "\\n"
  else if c = '\t' then "\\t"
  else if c = '\r' then "\\r"
  else String.singleton c

/-- A JSON string literal as `json.dumps` prints it. -/
def jsonQuote (s : String) : String :=
  "\"" ++ String.join (s.data.map jsonEscapeChar) ++ "\""

/-- `"\n" + "  " * level`: the indentation prefix `json.dumps(-, indent=2)`
puts before an element nested at depth `level`. -/
def indentStr (level : Nat) : String :=
  String.join (List.replicate (2 * level) " ")

mutual

/-- `json.dumps(-, indent=2)` at nesting depth `level`. -/
def dumpsAux : Nat → PyJson → String
  | _, .null => "null"
  | _, .bool true => "true"
  | _, .bool false => "false"
  | _, .num n => toString n
  | _, .str s => jsonQuote s
  | _, .arr [] => "[]"
  | level, .arr items =>
      "[\n" ++ String.intercalate ",\n" (dumpsList (level + 1) items) ++
        "\n" ++ indentStr level ++ "]"
  | _, .obj [] => "\x7b\x7d"
  | level, .obj entries =>
      "\x7b\n" ++ String.intercalate ",\n" (dumpsObj (level + 1) entries) ++
        "\n" ++ indentStr level ++ "\x7d"

def dumpsList (level : Nat) : List PyJson → List String
  | [] => []
  | x :: xs => (indentStr level ++ dumpsAux level x) :: dumpsList level xs

def dumpsObj (level : Nat) : List (String × PyJson) → List String
  | [] => []
  | (k, v) :: xs =>
      (indentStr level ++ jsonQuote k ++ ": " ++ dumpsAux level v) :: dumpsObj level xs

end

/-- `json.dumps(data, indent=2)`. -/
def jsonDumpsIndent2 (j : PyJson) : String := dumpsAux 0 j

-- ---------------------------
-- API CONFIG  (the APIS dict)
-- ---------------------------

structure ApiConfig where
  title : String
  description : String
  endpoint : String → String

/-- The `APIS` registry, in source order. -/
def APIS : List (String × ApiConfig) :=
  [("terabox",
    { title := "Terabox Downloader",
      description := "Download files from Terabox",
      endpoint := fun url =>
        "https://teraboxdownloderapi.revangeapi.workers.dev/?url=" ++ url }),
   ("social",
    { title := "Social Downloader",
      description := "Download videos from YouTube, Instagram, TikTok, Facebook",
      endpoint := fun url =>
        "https://nodejssocialdownloder.onrender.com/revangeapi/download?url=" ++ url }),
   ("llama",
    { title := "LLaMA 3.1 Chat",
      description := "Uncensored AI chat",
      endpoint := fun prompt =>
        "https://laama.revangeapi.workers.dev/chat?prompt=" ++ prompt }),
   ("gpt",
    { title := "GPT-3.5 Chat",
      description := "ChatGPT 3.5 (BJ Devs)",
      endpoint := fun prompt =>
        "https://gpt-3-5.apis-bj-devs.workers.dev/?prompt=" ++ prompt }),
   ("bj_assistant",
    { title := "BJ Tricks Assistant",
      description := "Alternate chat endpoint",
      endpoint := fun text =>
        "https://bj-tricks-assistant.bj-dev-x.workers.dev/?text=" ++ text })]

-- ---------------------------
-- call_api
-- ---------------------------

/-- The response-normalization branch of `call_api`, applied once
`resp.text()` has produced `text`: `parsed` is the `json.loads` result
(`none` models `json.JSONDecodeError`). -/
def normalizeResponse (text : String) (parsed : Option PyJson) : String :=
  match parsed with
  | some (.obj entries) =>
      match getA entries "reply" with
      | some v => pyStr v
      | none =>
          match getA entries "url" with
          | some v => pyStr v
          | none => jsonDumpsIndent2 (.obj entries)
  | some data => jsonDumpsIndent2 data
  | none => text

/-- `call_api`: `net url` is the body text of the GET (`none` models a raised
transport exception, caught by the outer `except` and turned into `None`);
`parse` is `json.loads`. -/
def call_api (net : String → Option String) (parse : String → Option PyJson)
    (url : String) : Option String :=
  match net url with
  | none => none
  | some text => some (normalizeResponse text (parse text))

-- ---------------------------
-- handle_api_request
-- ---------------------------

/-- The four reply paths of `handle_api_request`, each tagged by the code path
that produces it; `message` recovers the literal string sent to the user. -/
inductive DispatchReply where
  | quotaExceeded
  | unknownApi
  | serviceUnavailable
  | success (text : String)
  deriving DecidableEq, Repr

def DispatchReply.message : DispatchReply → String
  | .quotaExceeded => "🚫 Free tier limit reached. Wait until tomorrow or ask admin."
  | .unknownApi => "Unknown API."
  | .serviceUnavailable => "😕 Service unavailable. Try later."
  | .success s => s

/-- `handle_api_request`: quota gate (`check_quota` is always evaluated, its
`setdefault` side effect included), endpoint lookup, outbound call, and — only
when `result` is truthy — one `increment` plus the reply.  `if not result`
is true both for `None` and for the empty string. -/
def handle_api_request (t : UsageTracker) (adminIds : List Int) (user_id : Int)
    (today : String) (api_key : String) (argument : String)
    (net : String → Option String) (parse : String → Option PyJson) :
    DispatchReply × UsageTracker :=
  let checked := t.check_quota user_id today
  if !checked.1 && !(adminIds.contains user_id) then
    (.quotaExceeded, checked.2)
  else
    match getA APIS api_key with
    | none => (.unknownApi, checked.2)
    | some config =>
        match call_api net parse (config.endpoint argument) with
        | none => (.serviceUnavailable, checked.2)
        | some result =>
            if result = "" then (.serviceUnavailable, checked.2)
            else (.success result, checked.2.increment user_id today)

-- ---------------------------
-- callback_handler
-- ---------------------------

/-- What `callback_handler` replies: an input prompt for a known key, the
fixed "Unknown option." edit, or nothing when the payload lacks the
`menu:` marker. -/
inductive CallbackReply where
  | promptFor (title : String)
  | unknownOption
  | ignored
  deriving DecidableEq, Repr

/-- Python `str.startswith`. -/
def pyStartswith (s pre : String) : Bool := pre.data.isPrefixOf s.data

/-- The characters after the first `':'`, if any: `s.split(":", 1)[1]`. -/
def splitColonOnceTail : List Char → Option (List Char)
  | [] => none
  | c :: rest => if c = ':' then some rest else splitColonOnceTail rest

def afterFirstColon (s : String) : String :=
  match splitColonOnceTail s.data with
  | some cs => String.mk cs
  | none => s

/-- `callback_handler` on the callback payload `data`.  It reads only `APIS`;
the quota tracker and entitlement state are untouched. -/
def callback_handler (data : String) : CallbackReply :=
  if pyStartswith data "menu:" then
    match getA APIS (afterFirstColon data) with
    | some cfg => .promptFor cfg.title
    | none => .unknownOption
  else .ignored

/-- `callback_handler` with the tracker state threaded through explicitly:
the function body never references `usage_tracker`, so the state passes
through unchanged. -/
def callbackStep (t : UsageTracker) (data : String) : CallbackReply × UsageTracker :=
  (callback_handler data, t)

-- ---------------------------
-- broadcast / stats replies
-- ---------------------------

/-- `broadcast` after the admin and argument guards: iterate
`usage_tracker._counts.keys()`, attempt each send (`send uid = false` models
`bot.send_message` raising, caught by the per-recipient `except`), count the
successes, and reply with the count. -/
def broadcast (t : UsageTracker) (send : Int → Bool) : Nat × String :=
  let sent := t.recordedUsers.foldl (fun s uid => if send uid then s + 1 else s) 0
  (sent, s!"Broadcast sent to {sent} users.")

-- ---------------------------
-- Health endpoint
-- ---------------------------

/-- `health`: `return {"status": "ok", "bot": "running"}`. -/
def health : PyJson :=
  .obj [("status", .str "ok"), ("bot", .str "running")]

/-- The liveness request with all bot state threaded explicitly: the handler
body reads none of it, so it passes through unchanged. -/
def healthStep (t : UsageTracker) : PyJson × UsageTracker :=
  (health, t)

-- ---------------------------
-- Entitlement Store (spec §4.2)
-- ---------------------------

/-- Modelled from the spec: the Entitlement Store (redeem codes and premium
grants, spec §3 and §4.2) is described by the spec but absent from
`src/bot.py`.  `codes` maps an opaque token to `(days_granted, issuer_id)`;
`grants` maps a user id to an `expires_at` instant.  Time is an abstract
`Nat` instant and `now + days` is the spec's `now + granted_days`. -/
structure EntitlementStore where
  codes : List (String × (Nat × Int))
  grants : List (Int × Nat)
  deriving DecidableEq, Repr

/-- Modelled from the spec: the outcome of `redeem` — either
`(granted_days, new_expiry)` or the "not found" outcome. -/
inductive RedeemResult where
  | redeemed (granted_days : Nat) (new_expiry : Nat)
  | notFound
  deriving DecidableEq, Repr

/-- Modelled from the spec: `redeem(code, user_id)` — on success, atomically
removes the code from the store and sets `user_id`'s expiry to
`now + granted_days`, overwriting any prior value; on failure (code absent)
returns the "not found" outcome with no state change. -/
def redeem (st : EntitlementStore) (code : String) (user_id : Int) (now : Nat) :
    RedeemResult × EntitlementStore :=
  match getA st.codes code with
  | none => (.notFound, st)
  | some entry =>
      let expiry := now + entry.1
      (.redeemed entry.1 expiry,
       { codes := delA st.codes code, grants := setA st.grants user_id expiry })

/-- Modelled from the spec: `is_premium(user_id)` — true iff a stored expiry
exists and is strictly after `now`. -/
def is_premium (st : EntitlementStore) (user_id : Int) (now : Nat) : Bool :=
  match getA st.grants user_id with
  | some expiry => decide (now < expiry)
  | none => false

theorem getA_delA_self {α β : Type} [DecidableEq α] (m : List (α × β)) (k : α) :
    getA (delA m k) k = none := by
  induction m with
  | nil => rfl
  | cons p rest ih =>
      obtain ⟨k0, v0⟩ := p
      by_cases h : k0 = k
      · subst h
        simp [delA, List.filter] at ih ⊢
        exact ih
      · simp [delA, List.filter, h] at ih ⊢
        simp [ih]

-- ---------------------------
-- Shared dispatch lemmas
-- ---------------------------

/-- Once the caller is authorized (quota available or admin) and the endpoint
key is known, `handle_api_request` is determined by the `call_api` outcome. -/
theorem handle_api_request_authorized (t : UsageTracker) (adminIds : List Int)
    (u : Int) (d : String) (api_key arg : String) (net : String → Option String)
    (parse : String → Option PyJson) (config : ApiConfig)
    (hapi : getA APIS api_key = some config)
    (hauth : (t.check_quota u d).1 = true ∨ adminIds.contains u = true) :
    handle_api_request t adminIds u d api_key arg net parse =
      match call_api net parse (config.endpoint arg) with
      | none => (.serviceUnavailable, (t.check_quota u d).2)
      | some result =>
          if result = "" then (.serviceUnavailable, (t.check_quota u d).2)
          else (.success result, (t.check_quota u d).2.increment u d) := by
  have hguard : (!(t.check_quota u d).1 && !(adminIds.contains u)) = false := by
    rcases hauth with h | h <;> rw [h] <;> simp
  unfold handle_api_request
  simp only [hguard, Bool.false_eq_true, if_false, hapi]

/-- Increment changes only the caller's count for the current day. -/
theorem countOf_dispatch_success (t : UsageTracker) (u : Int) (d : String)
    (u' : Int) (d' : String) (h : ¬(u' = u ∧ d' = d)) :
    ((t.check_quota u d).2.increment u d).countOf u' d' = t.countOf u' d' := by
  by_cases hu : u = u'
  · subst hu
    have hd : d ≠ d' := by
      intro hdd
      exact h ⟨rfl, hdd.symm⟩
    rw [UsageTracker.countOf_increment_ne_day _ _ _ _ _ hd,
      UsageTracker.countOf_check_quota]
  · rw [UsageTracker.countOf_increment_ne_user _ _ _ _ _ hu,
      UsageTracker.countOf_check_quota]

-- ---------------------------
-- Claims
-- ---------------------------

/-- C1: `check_quota` returns true iff the stored count for `(user, today)` is
strictly below the configured daily limit — for every tracker state, user and
day, whatever the stored count; moreover, starting from a day with no usage,
after exactly `limit` increments on that day `check_quota` returns false, and
on the next (distinct, unused) calendar day it returns true again provided the
limit is positive. -/
theorem C1_check_quota_daily_limit (t : UsageTracker) (u : Int) (d d' : String)
    (hpos : 0 < t.limit) (hd : d' ≠ d)
    (hd0 : t.countOf u d = 0) (hd'0 : t.countOf u d' = 0) :
    (∀ (s : UsageTracker) (u0 : Int) (day : String),
      (s.check_quota u0 day).1 = true ↔ s.countOf u0 day < s.limit)
    ∧ ((t.incrementN u d t.limit).check_quota u d).1 = false
    ∧ ((t.incrementN u d t.limit).check_quota u d').1 = true := by
  refine ⟨?_, ?_, ?_⟩
  · intro s u0 day
    rw [UsageTracker.check_quota_fst]
    simp
  · rw [UsageTracker.check_quota_fst, UsageTracker.countOf_incrementN_self,
      UsageTracker.limit_incrementN, hd0]
    simp
  · rw [UsageTracker.check_quota_fst,
      UsageTracker.countOf_incrementN_ne_day _ _ _ _ _ (Ne.symm hd),
      UsageTracker.limit_incrementN, hd'0]
    simpa using hpos

/-- C1 witness: the iff instantiated at a tracker already over its limit
(count 5 against limit 3), plus limit-many increments of a fresh user with
limit 20. -/
theorem C1_check_quota_daily_limit_witness :
    (((UsageTracker.mk 3 [(9, [("2025-02-02", 5)])]).check_quota 9 "2025-02-02").1 = true
      ↔ (UsageTracker.mk 3 [(9, [("2025-02-02", 5)])]).countOf 9 "2025-02-02"
          < (UsageTracker.mk 3 [(9, [("2025-02-02", 5)])]).limit)
    ∧ (((UsageTracker.mk 20 []).incrementN 7 "2025-01-01"
          (UsageTracker.mk 20 []).limit).check_quota 7 "2025-01-01").1 = false
    ∧ (((UsageTracker.mk 20 []).incrementN 7 "2025-01-01"
          (UsageTracker.mk 20 []).limit).check_quota 7 "2025-01-02").1 = true := by
  have h := C1_check_quota_daily_limit (UsageTracker.mk 20 []) 7 "2025-01-01" "2025-01-02"
    (by decide) (by decide) (by decide) (by decide)
  exact ⟨h.1 (UsageTracker.mk 3 [(9, [("2025-02-02", 5)])]) 9 "2025-02-02", h.2.1, h.2.2⟩

/-- C2: redeeming a stored code once removes it, yields
`(granted_days, now + granted_days)`, makes `is_premium` true exactly until
the new expiry, and a second redemption of the same code returns the
"not found" outcome with no state change.  (The Entitlement Store is modelled
from the spec; it is absent from `src/bot.py`.) -/
theorem C2_redeem_once (st : EntitlementStore) (code : String) (u : Int)
    (now days : Nat) (issuer : Int)
    (h : getA st.codes code = some (days, issuer)) :
    ((redeem st code u now).1 = RedeemResult.redeemed days (now + days))
    ∧ (getA (redeem st code u now).2.codes code = none)
    ∧ (∀ t : Nat, is_premium (redeem st code u now).2 u t = decide (t < now + days))
    ∧ (∀ now2 : Nat,
        redeem (redeem st code u now).2 code u now2
          = (RedeemResult.notFound, (redeem st code u now).2)) := by
  have hred : redeem st code u now
      = (RedeemResult.redeemed days (now + days),
         { codes := delA st.codes code,
           grants := setA st.grants u (now + days) }) := by
    unfold redeem
    rw [h]
  refine ⟨by rw [hred], ?_, ?_, ?_⟩
  · rw [hred]
    exact getA_delA_self _ _
  · intro t
    rw [hred]
    unfold is_premium
    simp [getA_setA_self]
  · intro now2
    rw [hred]
    unfold redeem
    simp [getA_delA_self]

/-- C2 witness: one stored code "abc" worth 30 days, redeemed by user 7 at
instant 100; premium holds at instant 129 and the second redemption fails. -/
theorem C2_redeem_once_witness :
    ((redeem ⟨[("abc", (30, 1))], []⟩ "abc" 7 100).1
        = RedeemResult.redeemed 30 130)
    ∧ (getA (redeem ⟨[("abc", (30, 1))], []⟩ "abc" 7 100).2.codes "abc" = none)
    ∧ (is_premium (redeem ⟨[("abc", (30, 1))], []⟩ "abc" 7 100).2 7 129 = true)
    ∧ (redeem (redeem ⟨[("abc", (30, 1))], []⟩ "abc" 7 100).2 "abc" 7 200
        = (RedeemResult.notFound, (redeem ⟨[("abc", (30, 1))], []⟩ "abc" 7 100).2)) := by
  have h := C2_redeem_once ⟨[("abc", (30, 1))], []⟩ "abc" 7 100 30 1 rfl
  refine ⟨h.1, h.2.1, ?_, h.2.2.2 200⟩
  rw [h.2.2.1 129]
  decide

/-- C3: for an authorized caller and a known endpoint, the quota increment
happens exactly once per successful call and never on failure — when the
transport raised (`none`) or the normalized result is reported as a failure
(the empty string), the reply is the service-unavailable message and every
stored `(user, day)` count is unchanged; when the call succeeds, the state is
exactly one `increment` of the caller for today. -/
theorem C3_increment_exactly_once (t : UsageTracker) (adminIds : List Int)
    (u : Int) (d : String) (api_key arg : String) (net : String → Option String)
    (parse : String → Option PyJson) (config : ApiConfig)
    (hapi : getA APIS api_key = some config)
    (hauth : (t.check_quota u d).1 = true ∨ adminIds.contains u = true) :
    ((call_api net parse (config.endpoint arg) = none
        ∨ call_api net parse (config.endpoint arg) = some "") →
      ((handle_api_request t adminIds u d api_key arg net parse).1
          = DispatchReply.serviceUnavailable)
      ∧ (∀ u' d', (handle_api_request t adminIds u d api_key arg net parse).2.countOf u' d'
            = t.countOf u' d'))
    ∧ (∀ s : String, call_api net parse (config.endpoint arg) = some s → s ≠ "" →
      ((handle_api_request t adminIds u d api_key arg net parse).1
          = DispatchReply.success s)
      ∧ ((handle_api_request t adminIds u d api_key arg net parse).2
          = (t.check_quota u d).2.increment u d)
      ∧ ((handle_api_request t adminIds u d api_key arg net parse).2.countOf u d
          = t.countOf u d + 1)
      ∧ (∀ u' d', ¬(u' = u ∧ d' = d) →
          (handle_api_request t adminIds u d api_key arg net parse).2.countOf u' d'
            = t.countOf u' d')) := by
  have hmain := handle_api_request_authorized t adminIds u d api_key arg net parse
    config hapi hauth
  constructor
  · intro hfail
    have hres : handle_api_request t adminIds u d api_key arg net parse
        = (DispatchReply.serviceUnavailable, (t.check_quota u d).2) := by
      rcases hfail with hnone | hempty
      · rw [hmain, hnone]
      · rw [hmain, hempty]
        simp
    rw [hres]
    exact ⟨rfl, fun u' d' => UsageTracker.countOf_check_quota t u d u' d'⟩
  · intro s hs hne
    have hres : handle_api_request t adminIds u d api_key arg net parse
        = (DispatchReply.success s, (t.check_quota u d).2.increment u d) := by
      rw [hmain, hs]
      simp [hne]
    rw [hres]
    refine ⟨rfl, rfl, ?_, ?_⟩
    · rw [UsageTracker.countOf_increment_self, UsageTracker.countOf_check_quota]
    · intro u' d' h
      exact countOf_dispatch_success t u d u' d' h

/-- C3 witness: fresh tracker, non-admin user 7, endpoint "gpt"; a transport
failure leaves the count at 0, a successful call sets it to 1. -/
theorem C3_increment_exactly_once_witness :
    ((handle_api_request ⟨20, []⟩ [] 7 "2025-01-01" "gpt" "hi"
        (fun _ => none) (fun _ => none)).1 = DispatchReply.serviceUnavailable)
    ∧ ((handle_api_request ⟨20, []⟩ [] 7 "2025-01-01" "gpt" "hi"
        (fun _ => none) (fun _ => none)).2.countOf 7 "2025-01-01" = 0)
    ∧ ((handle_api_request ⟨20, []⟩ [] 7 "2025-01-01" "gpt" "hi"
        (fun _ => some "ok") (fun _ => none)).1 = DispatchReply.success "ok")
    ∧ ((handle_api_request ⟨20, []⟩ [] 7 "2025-01-01" "gpt" "hi"
        (fun _ => some "ok") (fun _ => none)).2.countOf 7 "2025-01-01" = 1) := by
  have hfail := (C3_increment_exactly_once ⟨20, []⟩ [] 7 "2025-01-01" "gpt" "hi"
    (fun _ => none) (fun _ => none) _ rfl (Or.inl rfl)).1 (Or.inl rfl)
  have hok := (C3_increment_exactly_once ⟨20, []⟩ [] 7 "2025-01-01" "gpt" "hi"
    (fun _ => some "ok") (fun _ => none) _ rfl (Or.inl rfl)).2 "ok" rfl (by decide)
  refine ⟨hfail.1, ?_, hok.1, ?_⟩
  · rw [hfail.2 7 "2025-01-01"]
    rfl
  · rw [hok.2.2.1]
    rfl

/-- C4: a caller in the administrator set never receives the quota-exceeded
failure, whatever the tracker state, endpoint key, argument or network
behaviour. -/
theorem C4_admin_bypasses_quota (t : UsageTracker) (adminIds : List Int)
    (u : Int) (d : String) (api_key arg : String) (net : String → Option String)
    (parse : String → Option PyJson) (hadmin : adminIds.contains u = true) :
    (handle_api_request t adminIds u d api_key arg net parse).1
      ≠ DispatchReply.quotaExceeded := by
  unfold handle_api_request
  simp only [hadmin, Bool.not_true, Bool.and_false, Bool.false_eq_true, if_false]
  cases hapi : getA APIS api_key with
  | none => simp
  | some config =>
      cases hc : call_api net parse (config.endpoint arg) with
      | none => simp [hc]
      | some r =>
          by_cases hr : r = "" <;> simp [hc, hr]

/-- C4 witness: admin user 7 already at the limit (20 uses recorded today)
still does not get the quota-exceeded reply. -/
theorem C4_admin_bypasses_quota_witness :
    (handle_api_request ⟨20, [(7, [("2025-01-01", 20)])]⟩ [7] 7 "2025-01-01"
        "gpt" "hi" (fun _ => some "ok") (fun _ => none)).1
      ≠ DispatchReply.quotaExceeded :=
  C4_admin_bypasses_quota ⟨20, [(7, [("2025-01-01", 20)])]⟩ [7] 7 "2025-01-01"
    "gpt" "hi" (fun _ => some "ok") (fun _ => none) (by decide)

theorem isPrefixOf_append_self {α : Type} [DecidableEq α] (l r : List α) :
    l.isPrefixOf (l ++ r) = true := by
  induction l with
  | nil => simp [List.isPrefixOf]
  | cons x xs ih => simp [List.isPrefixOf, ih]

theorem pyStartswith_menu (key : String) :
    pyStartswith ("menu:" ++ key) "menu:" = true := by
  unfold pyStartswith
  rw [String.data_append]
  exact isPrefixOf_append_self _ _

theorem afterFirstColon_menu (key : String) :
    afterFirstColon ("menu:" ++ key) = key := by
  unfold afterFirstColon
  rw [String.data_append]
  have hd : "menu:".data = ['m', 'e', 'n', 'u', ':'] := rfl
  rw [hd]
  have h : splitColonOnceTail (['m', 'e', 'n', 'u', ':'] ++ key.data)
      = some key.data := by
    simp [splitColonOnceTail]
  rw [h]

theorem broadcast_foldl (send : Int → Bool) (l : List Int) (n : Nat) :
    l.foldl (fun s uid => if send uid then s + 1 else s) n
      = n + (l.filter (fun uid => send uid)).length := by
  induction l generalizing n with
  | nil => simp
  | cons x xs ih =>
      by_cases h : send x
      · simp [h, ih]
        omega
      · simp [h, ih]

theorem length_sub_filter (send : Int → Bool) (l : List Int) :
    (l.filter (fun uid => send uid)).length
      = l.length - (l.filter (fun uid => !(send uid))).length := by
  induction l with
  | nil => rfl
  | cons x xs ih =>
      have hle := List.length_filter_le (fun uid => !(send uid)) xs
      by_cases h : send x
      · simp [h, ih]
        omega
      · simp [h, ih]

/-- C5: response normalization is determined by the parse result: a JSON
object containing "reply" emits that value as text; else one containing "url"
emits that value; any other parsed value emits its 2-space pretty-print; an
unparsable body is returned verbatim — plus the four concrete spec examples. -/
theorem C5_response_normalization (text : String) (parsed : Option PyJson) :
    (∀ entries v, parsed = some (PyJson.obj entries) →
      getA entries "reply" = some v → normalizeResponse text parsed = pyStr v)
    ∧ (∀ entries v, parsed = some (PyJson.obj entries) →
      getA entries "reply" = none → getA entries "url" = some v →
      normalizeResponse text parsed = pyStr v)
    ∧ (∀ entries, parsed = some (PyJson.obj entries) →
      getA entries "reply" = none → getA entries "url" = none →
      normalizeResponse text parsed = jsonDumpsIndent2 (PyJson.obj entries))
    ∧ (∀ j, parsed = some j → (∀ entries, j ≠ PyJson.obj entries) →
      normalizeResponse text parsed = jsonDumpsIndent2 j)
    ∧ (parsed = none → normalizeResponse text parsed = text)
    ∧ (normalizeResponse "\x7b\"reply\":\"hi\"\x7d"
        (some (PyJson.obj [("reply", PyJson.str "hi")])) = "hi")
    ∧ (normalizeResponse "\x7b\"url\":\"http://x\"\x7d"
        (some (PyJson.obj [("url", PyJson.str "http://x")])) = "http://x")
    ∧ (normalizeResponse "\x7b\"foo\":1\x7d"
        (some (PyJson.obj [("foo", PyJson.num 1)])) = "\x7b\n  \"foo\": 1\n\x7d")
    ∧ (normalizeResponse "plain text" none = "plain text") := by
  refine ⟨?_, ?_, ?_, ?_, ?_, rfl, rfl, rfl, rfl⟩
  · intro entries v hp hr
    subst hp
    simp [normalizeResponse, hr]
  · intro entries v hp hr hu
    subst hp
    simp [normalizeResponse, hr, hu]
  · intro entries hp hr hu
    subst hp
    simp [normalizeResponse, hr, hu]
  · intro j hp hne
    subst hp
    cases j with
    | obj entries => exact absurd rfl (hne entries)
    | null => rfl
    | bool b => rfl
    | num n => rfl
    | str s => rfl
    | arr items => rfl
  · intro hp
    subst hp
    rfl

/-- C5 witness: the "reply" branch at a concrete body. -/
theorem C5_response_normalization_witness :
    normalizeResponse "\x7b\"reply\":\"hi\"\x7d"
        (some (PyJson.obj [("reply", PyJson.str "hi")])) = pyStr (PyJson.str "hi") :=
  (C5_response_normalization "\x7b\"reply\":\"hi\"\x7d"
      (some (PyJson.obj [("reply", PyJson.str "hi")]))).1
    [("reply", PyJson.str "hi")] (PyJson.str "hi") rfl rfl

/-- C6: broadcasting over the N recorded users, of which M sends raise,
reports exactly N - M successful deliveries (the per-recipient failures are
absorbed by the fold, which is total), and the reply message reports that
count. -/
theorem C6_broadcast_reports (t : UsageTracker) (send : Int → Bool) :
    ((broadcast t send).1
      = t.recordedUsers.length
          - (t.recordedUsers.filter (fun uid => !(send uid))).length)
    ∧ (broadcast t send).2 = s!"Broadcast sent to {(broadcast t send).1} users." := by
  refine ⟨?_, rfl⟩
  have h1 : (broadcast t send).1
      = t.recordedUsers.foldl (fun s uid => if send uid then s + 1 else s) 0 := rfl
  rw [h1, broadcast_foldl]
  simpa using length_sub_filter send t.recordedUsers

/-- C7: a menu-selection payload `menu:<key>` whose key is not in the endpoint
registry yields the fixed "unknown option" reply, and the tracker state passes
through untouched (the handler performs no outbound call and no state write). -/
theorem C7_unknown_menu_option (t : UsageTracker) (key : String)
    (h : getA APIS key = none) :
    callbackStep t ("menu:" ++ key) = (CallbackReply.unknownOption, t) := by
  unfold callbackStep callback_handler
  rw [pyStartswith_menu, afterFirstColon_menu, h]
  rfl

/-- C7 witness: the unknown key "zzz". -/
theorem C7_unknown_menu_option_witness :
    callbackStep ⟨20, []⟩ ("menu:" ++ "zzz")
      = (CallbackReply.unknownOption, (⟨20, []⟩ : UsageTracker)) :=
  C7_unknown_menu_option ⟨20, []⟩ "zzz" rfl

/-- C8: every liveness request returns the fixed JSON object
with status "ok" and bot "running", and the bot state passes through
unchanged. -/
theorem C8_health_fixed (t : UsageTracker) :
    healthStep t
      = (PyJson.obj [("status", PyJson.str "ok"), ("bot", PyJson.str "running")], t) :=
  rfl

/-- C9 as stated is false at a concrete input: `check_quota` on a fresh
tracker does record user 7 (broadcast would iterate them), but `stats`
renders no line for them — its whole output is still "No usage recorded.". -/
theorem C9_counterexample :
    ((((UsageTracker.mk 20 []).check_quota 7 "2025-01-01").2.recordedUsers = [7]))
    ∧ (((UsageTracker.mk 20 []).check_quota 7 "2025-01-01").2.statsLines = [])
    ∧ (((UsageTracker.mk 20 []).check_quota 7 "2025-01-01").2.stats
        = "No usage recorded.") :=
  ⟨rfl, rfl, rfl⟩

/-- C9 (amended): `check_quota` is not a pure read — for a user id not yet
present it inserts an empty record, and that user thereafter appears in the
recorded-user list iterated by broadcast; `stats`, however, renders no line
for them, since their per-day dict is empty. -/
theorem C9_check_quota_inserts (t : UsageTracker) (u : Int) (d : String)
    (h : getA t.counts u = none) :
    ((t.check_quota u d).2.recordedUsers = t.recordedUsers ++ [u])
    ∧ (getA (t.check_quota u d).2.counts u = some [])
    ∧ ((t.check_quota u d).2.statsLines = t.statsLines) := by
  have hc := UsageTracker.check_quota_absent_counts t u d h
  refine ⟨?_, ?_, ?_⟩
  · unfold UsageTracker.recordedUsers
    rw [hc]
    simp
  · rw [hc]
    simp [getA_append, h]
  · unfold UsageTracker.statsLines
    rw [hc]
    simp [List.foldr_append]

/-- C9 witness: fresh tracker, user 7. -/
theorem C9_check_quota_inserts_witness :
    ((((UsageTracker.mk 20 []).check_quota 7 "2025-01-01").2.recordedUsers
        = (UsageTracker.mk 20 []).recordedUsers ++ [7]))
    ∧ (getA ((UsageTracker.mk 20 []).check_quota 7 "2025-01-01").2.counts 7 = some [])
    ∧ (((UsageTracker.mk 20 []).check_quota 7 "2025-01-01").2.statsLines
        = (UsageTracker.mk 20 []).statsLines) :=
  C9_check_quota_inserts (UsageTracker.mk 20 []) 7 "2025-01-01" rfl

/-- C10: when the outbound call completes but the normalized text is the empty
string, the dispatcher replies service-unavailable, leaves every stored count
unchanged, and the whole step equals the one where the transport call raised. -/
theorem C10_empty_result_is_failure (t : UsageTracker) (adminIds : List Int)
    (u : Int) (d : String) (api_key arg : String) (net : String → Option String)
    (parse : String → Option PyJson) (config : ApiConfig)
    (hapi : getA APIS api_key = some config)
    (hauth : (t.check_quota u d).1 = true ∨ adminIds.contains u = true)
    (hempty : call_api net parse (config.endpoint arg) = some "") :
    ((handle_api_request t adminIds u d api_key arg net parse).1
        = DispatchReply.serviceUnavailable)
    ∧ (∀ u' d', (handle_api_request t adminIds u d api_key arg net parse).2.countOf u' d'
          = t.countOf u' d')
    ∧ (handle_api_request t adminIds u d api_key arg net parse
        = handle_api_request t adminIds u d api_key arg (fun _ => none) parse) := by
  have h1 := handle_api_request_authorized t adminIds u d api_key arg net parse
    config hapi hauth
  have h2 := handle_api_request_authorized t adminIds u d api_key arg
    (fun _ => none) parse config hapi hauth
  have hres : handle_api_request t adminIds u d api_key arg net parse
      = (DispatchReply.serviceUnavailable, (t.check_quota u d).2) := by
    rw [h1, hempty]
    simp
  have hres2 : handle_api_request t adminIds u d api_key arg (fun _ => none) parse
      = (DispatchReply.serviceUnavailable, (t.check_quota u d).2) := by
    rw [h2]
    rfl
  refine ⟨by rw [hres], ?_, by rw [hres, hres2]⟩
  intro u' d'
  rw [hres]
  exact UsageTracker.countOf_check_quota t u d u' d'

/-- C10 witness: the network returns an empty body, which normalizes to the
empty string; the outcome matches the transport-failure outcome. -/
theorem C10_empty_result_is_failure_witness :
    ((handle_api_request ⟨20, []⟩ [] 7 "2025-01-01" "gpt" "hi"
        (fun _ => some "") (fun _ => none)).1 = DispatchReply.serviceUnavailable)
    ∧ ((handle_api_request ⟨20, []⟩ [] 7 "2025-01-01" "gpt" "hi"
        (fun _ => some "") (fun _ => none)).2.countOf 7 "2025-01-01"
        = (UsageTracker.mk 20 []).countOf 7 "2025-01-01")
    ∧ (handle_api_request ⟨20, []⟩ [] 7 "2025-01-01" "gpt" "hi"
        (fun _ => some "") (fun _ => none)
        = handle_api_request ⟨20, []⟩ [] 7 "2025-01-01" "gpt" "hi"
            (fun _ => none) (fun _ => none)) := by
  have h := C10_empty_result_is_failure ⟨20, []⟩ [] 7 "2025-01-01" "gpt" "hi"
    (fun _ => some "") (fun _ => none) _ rfl (Or.inl rfl) rfl
  exact ⟨h.1, h.2.1 7 "2025-01-01", h.2.2⟩
